import Mathlib

/-!
Verification of the diraloguer terminal-menu library.

The development shallowly embeds the library (src/lib.rs and
examples/paragraph.rs).  The wrapped console::Term handle is modelled by an
explicit trace of terminal effects; the two usize counters of TrackedTerm
(field .1, the written-line count, and field .2, the net upward cursor
displacement) become Nat fields.  Rust usize checked_sub is modelled with
Option Nat; plain usize subtraction is modelled by truncated Nat
subtraction, which agrees with Rust wherever the subtrahend does not exceed
the minuend (the only regime the theorems below visit).
-/

/-- Model of Rust str::lines on the character list of a string: split on
a newline character, strip one carriage return at the end of a line that
was terminated by a newline, and produce no final empty line for a string
that ends with a newline. -/
def stripCR (l : List Char) : List Char :=
  match l with
  | '\r' :: rest => rest
  | _ => l

/-- Recursive worker for rustLines; cur holds the current line reversed. -/
def rustLinesAux (cur : List Char) : List Char → List (List Char)
  | [] => if cur.isEmpty then [] else [cur.reverse]
  | c :: rest =>
      if c = '\n' then (stripCR cur).reverse :: rustLinesAux [] rest
      else rustLinesAux (c :: cur) rest

/-- Model of Rust str::lines. -/
def rustLines (s : String) : List String :=
  (rustLinesAux [] s.data).map (fun l => ⟨l⟩)

/-- One call against the underlying console::Term handle. -/
inductive Effect where
  | writeLine (s : String)
  | clearLastLines (n : Nat)
  | moveUp (n : Nat)
  | moveDown (n : Nat)
deriving DecidableEq

/-- State of TrackedTerm: field .1 of the Rust tuple struct is
lines_written, field .2 is net_up_displacement.  The Term handle itself is
modelled by the Effect traces the operations return. -/
structure TrackedTerm where
  lines_written : Nat
  net_up_displacement : Nat
deriving DecidableEq

/-- TrackedTerm::stdout starts both counters at zero. -/
def TrackedTerm.stdout : TrackedTerm := ⟨0, 0⟩

/-- The for loop of TrackedTerm::write_line: for each line, write it to the
terminal and increment lines_written by one. -/
def write_line_loop (acc : TrackedTerm × List Effect) :
    List String → TrackedTerm × List Effect
  | [] => acc
  | line :: rest =>
      write_line_loop
        ({ acc.1 with lines_written := acc.1.lines_written + 1 },
         acc.2 ++ [Effect.writeLine line]) rest

/-- TrackedTerm::write_line: split the string on line boundaries and run
the loop. -/
def TrackedTerm.write_line (t : TrackedTerm) (s : String) :
    TrackedTerm × List Effect :=
  write_line_loop (t, []) (rustLines s)

/-- TrackedTerm::line_break: write_line on a newline string. -/
def TrackedTerm.line_break (t : TrackedTerm) : TrackedTerm × List Effect :=
  t.write_line "\n"

/-- Rust usize checked_sub. -/
def checked_sub (a b : Nat) : Option Nat :=
  if b ≤ a then some (a - b) else none

/-- TrackedTerm::move_cursor_down with the panic branch kept explicit:
none is the panic "This can't happen". -/
def move_cursor_down_checked (t : TrackedTerm) (n : Nat) :
    Option (TrackedTerm × List Effect) :=
  match checked_sub t.net_up_displacement n with
  | some r => some ({ t with net_up_displacement := r }, [Effect.moveDown n])
  | none =>
      match checked_sub n t.net_up_displacement with
      | some r =>
          some ({ t with lines_written := t.lines_written + r,
                         net_up_displacement := 0 }, [Effect.moveDown n])
      | none => none

/-- TrackedTerm::move_cursor_down, total form: the panic branch is
unreachable (proved below), so the shortfall is plain subtraction. -/
def TrackedTerm.move_cursor_down (t : TrackedTerm) (n : Nat) :
    TrackedTerm × List Effect :=
  match checked_sub t.net_up_displacement n with
  | some r => ({ t with net_up_displacement := r }, [Effect.moveDown n])
  | none =>
      ({ t with lines_written := t.lines_written + (n - t.net_up_displacement),
                net_up_displacement := 0 }, [Effect.moveDown n])

/-- TrackedTerm::move_cursor_up: add to the displacement, no clamping. -/
def TrackedTerm.move_cursor_up (t : TrackedTerm) (n : Nat) :
    TrackedTerm × List Effect :=
  ({ t with net_up_displacement := t.net_up_displacement + n },
   [Effect.moveUp n])

/-- TrackedTerm::clear_last_lines: clamp to lines_written minus
net_up_displacement, clear that many on the terminal, add it to the
displacement. -/
def TrackedTerm.clear_last_lines (t : TrackedTerm) (n : Nat) :
    TrackedTerm × List Effect :=
  if n > t.lines_written - t.net_up_displacement then
    ({ t with net_up_displacement :=
         t.net_up_displacement + (t.lines_written - t.net_up_displacement) },
     [Effect.clearLastLines (t.lines_written - t.net_up_displacement)])
  else
    ({ t with net_up_displacement := t.net_up_displacement + n },
     [Effect.clearLastLines n])

/-- TrackedTerm::force_clear_line: clear one line, touch no counter. -/
def TrackedTerm.force_clear_line (t : TrackedTerm) :
    TrackedTerm × List Effect :=
  (t, [Effect.clearLastLines 1])

/-- TrackedTerm::reset: if the displacement is positive, move the cursor
back down by it through the tracked wrapper; then clear lines_written + 1
lines on the raw terminal; finally zero lines_written. -/
def TrackedTerm.reset (t : TrackedTerm) : TrackedTerm × List Effect :=
  let p := if 0 < t.net_up_displacement
           then t.move_cursor_down t.net_up_displacement
           else (t, [])
  ({ p.1 with lines_written := 0 },
   p.2 ++ [Effect.clearLastLines (p.1.lines_written + 1)])

/-- A public TrackedTerm operation. -/
inductive TOp where
  | writeLine (s : String)
  | lineBreak
  | reset
  | clearLastLines (n : Nat)
  | moveCursorUp (n : Nat)
  | moveCursorDown (n : Nat)
  | forceClearLine

/-- Apply one public operation. -/
def TrackedTerm.applyOp (t : TrackedTerm) : TOp → TrackedTerm × List Effect
  | .writeLine s => t.write_line s
  | .lineBreak => t.line_break
  | .reset => t.reset
  | .clearLastLines n => t.clear_last_lines n
  | .moveCursorUp n => t.move_cursor_up n
  | .moveCursorDown n => t.move_cursor_down n
  | .forceClearLine => t.force_clear_line

/-- Apply a sequence of public operations, keeping only the state. -/
def TrackedTerm.applyOps (t : TrackedTerm) : List TOp → TrackedTerm
  | [] => t
  | op :: rest => (t.applyOp op).1.applyOps rest

/-- Guard under which one operation is considered safe: an upward move may
not climb past the written lines.  Every other operation is unguarded. -/
def guardOp (t : TrackedTerm) : TOp → Bool
  | .moveCursorUp n => decide (t.net_up_displacement + n ≤ t.lines_written)
  | _ => true

/-- A sequence is guarded when each operation is safe in the state it
actually runs in. -/
def validTOps (t : TrackedTerm) : List TOp → Bool
  | [] => true
  | op :: rest => guardOp t op && validTOps (t.applyOp op).1 rest

/-- Operations that only write lines. -/
def isWriteOp : TOp → Bool
  | .writeLine _ => true
  | .lineBreak => true
  | _ => false

/-- Number of counted lines a write-only sequence emits. -/
def countedLines : List TOp → Nat
  | [] => 0
  | .writeLine s :: rest => (rustLines s).length + countedLines rest
  | .lineBreak :: rest => 1 + countedLines rest
  | _ :: rest => countedLines rest

/-- Total number of lines an effect trace erases from the terminal. -/
def erasedCount : List Effect → Nat
  | [] => 0
  | .clearLastLines n :: rest => n + erasedCount rest
  | _ :: rest => erasedCount rest

/-- The Toggle menu item of src/lib.rs. -/
structure Toggle where
  title : String
  content : String
  value : Bool
  true_text : String
  false_text : String
deriving DecidableEq

/-- Toggle::update_content: recompute the cached display string from
title, value and the two labels (format "title: text"). -/
def Toggle.update_content (t : Toggle) : Toggle :=
  let text := if t.value then t.true_text else t.false_text
  { t with content := t.title ++ ": " ++ text }

/-- Toggle::new: value false, labels "true"/"false", then update_content. -/
def Toggle.new (text : String) : Toggle :=
  Toggle.update_content
    { title := text, content := text, value := false,
      true_text := "true", false_text := "false" }

/-- Toggle::value builder (renamed to avoid the field accessor). -/
def Toggle.set_value (t : Toggle) (value : Bool) : Toggle :=
  Toggle.update_content { t with value := value }

/-- Toggle::true_text builder (renamed to avoid the field accessor). -/
def Toggle.set_true_text (t : Toggle) (text : String) : Toggle :=
  Toggle.update_content { t with true_text := text }

/-- Toggle::false_text builder (renamed to avoid the field accessor). -/
def Toggle.set_false_text (t : Toggle) (text : String) : Toggle :=
  Toggle.update_content { t with false_text := text }

/-- MenuItem::name for Toggle returns the cached content. -/
def Toggle.name (t : Toggle) : String := t.content

/-- MenuItem::exec for Toggle: flip the value, recompute the content.  It
writes nothing to the terminal. -/
def Toggle.exec (t : Toggle) : Toggle :=
  Toggle.update_content { t with value := !t.value }

/-- MenuItem::is_enabled for Toggle. -/
def Toggle.is_enabled (_ : Toggle) : Bool := true

/-- The display string a Toggle should cache, as spelled out by
update_content. -/
def Toggle.fmt (t : Toggle) : String :=
  t.title ++ ": " ++ (if t.value then t.true_text else t.false_text)

/-- The Directory menu of src/lib.rs.  Its boxed dyn MenuItem children are
modelled by an arbitrary type parameter: none of the Directory operations
examined here inspects a child beyond storing it. -/
structure Directory (α : Type) where
  title : String
  prompt : String
  items : List α
  selected : Nat
  exit_confirmation : Option String

/-- Directory::new: both title and prompt from the argument, no items,
selected 0, no exit confirmation. -/
def Directory.new (title : String) : Directory α :=
  { title := title, prompt := title, items := [], selected := 0,
    exit_confirmation := none }

/-- Directory::prompt setter (renamed to avoid the field accessor). -/
def Directory.set_prompt (d : Directory α) (prompt : String) : Directory α :=
  { d with prompt := prompt }

/-- Directory::item: push one child. -/
def Directory.item (d : Directory α) (x : α) : Directory α :=
  { d with items := d.items ++ [x] }

/-- Directory::default: store the index with no bounds check. -/
def Directory.default (d : Directory α) (def_ : Nat) : Directory α :=
  { d with selected := def_ }

/-- Directory::confirmation setter. -/
def Directory.confirmation (d : Directory α) (s : String) : Directory α :=
  { d with exit_confirmation := some s }

/-- The assignment self.selected = v performed inside Directory::exec when
the selection widget confirms index v. -/
def Directory.select_update (d : Directory α) (v : Nat) : Directory α :=
  { d with selected := v }

/-- One public Directory operation after construction. -/
inductive DirOp (α : Type) where
  | set_prompt (s : String)
  | item (x : α)
  | default (n : Nat)
  | confirmation (s : String)
  | select_update (v : Nat)

/-- Apply one Directory operation. -/
def Directory.applyOp (d : Directory α) : DirOp α → Directory α
  | .set_prompt s => d.set_prompt s
  | .item x => d.item x
  | .default n => d.default n
  | .confirmation s => d.confirmation s
  | .select_update v => d.select_update v

/-- Apply a sequence of Directory operations. -/
def Directory.applyOps (d : Directory α) : List (DirOp α) → Directory α
  | [] => d
  | op :: rest => (d.applyOp op).applyOps rest

/-- Guard on one Directory operation: a default index must be in bounds
(or be zero while the item list is still empty), and a selection update
stores an index the selection widget produced, hence one in bounds. -/
def dirGuard (d : Directory α) : DirOp α → Bool
  | .default n =>
      decide (n < d.items.length) || (decide (d.items.length = 0) && decide (n = 0))
  | .select_update v => decide (v < d.items.length)
  | _ => true

/-- A Directory operation sequence is guarded when each operation is
guarded in the state it actually runs in. -/
def validDirOps (d : Directory α) : List (DirOp α) → Bool
  | [] => true
  | op :: rest => dirGuard d op && validDirOps (d.applyOp op) rest

/-- The Paragraph menu item of examples/paragraph.rs. -/
structure Paragraph where
  title : String
  paragraphs : List String
deriving DecidableEq

/-- MenuItem::name for Paragraph. -/
def Paragraph.name (p : Paragraph) : String := p.title

/-- MenuItem::is_enabled for Paragraph. -/
def Paragraph.is_enabled (_ : Paragraph) : Bool := true

/-- MenuItem::exec for Paragraph: write_line the title, then an empty
string, then each paragraph each followed by an empty string, then an
empty string and the instruction footer.  The Paragraph itself is
returned first to record that exec leaves it untouched. -/
def Paragraph.exec (p : Paragraph) (t : TrackedTerm) :
    Paragraph × TrackedTerm × List Effect :=
  let s1 := t.write_line p.title
  let s2 := s1.1.write_line ""
  let s3 := p.paragraphs.foldl
    (fun (acc : TrackedTerm × List Effect) q =>
      let a := acc.1.write_line q
      let b := a.1.write_line ""
      (b.1, acc.2 ++ a.2 ++ b.2))
    (s2.1, [])
  let s4 := s3.1.write_line ""
  let s5 := s4.1.write_line "  Press 's' to save to a file, or 'q' to go back"
  (p, s5.1, s1.2 ++ s2.2 ++ s3.2 ++ s4.2 ++ s5.2)

theorem string_append_assoc (a b c : String) : a ++ b ++ c = a ++ (b ++ c) := by
  cases a with
  | mk da =>
      cases b with
      | mk db =>
          cases c with
          | mk dc =>
              show String.mk (da ++ db ++ dc) = String.mk (da ++ (db ++ dc))
              rw [List.append_assoc]

theorem write_line_loop_lines (ls : List String) :
    ∀ (t : TrackedTerm) (es : List Effect),
      (write_line_loop (t, es) ls).1.lines_written = t.lines_written + ls.length := by
  induction ls with
  | nil => intro t es; simp [write_line_loop]
  | cons l rest ih =>
      intro t es
      show (write_line_loop _ rest).1.lines_written = _
      rw [ih]
      simp
      omega

theorem write_line_loop_net (ls : List String) :
    ∀ (t : TrackedTerm) (es : List Effect),
      (write_line_loop (t, es) ls).1.net_up_displacement = t.net_up_displacement := by
  induction ls with
  | nil => intro t es; simp [write_line_loop]
  | cons l rest ih =>
      intro t es
      show (write_line_loop _ rest).1.net_up_displacement = _
      rw [ih]

theorem write_line_loop_effects (ls : List String) :
    ∀ (t : TrackedTerm) (es : List Effect),
      (write_line_loop (t, es) ls).2 = es ++ ls.map Effect.writeLine := by
  induction ls with
  | nil => intro t es; simp [write_line_loop]
  | cons l rest ih =>
      intro t es
      show (write_line_loop _ rest).2 = _
      rw [ih]
      simp

theorem write_line_lines (t : TrackedTerm) (s : String) :
    (t.write_line s).1.lines_written = t.lines_written + (rustLines s).length :=
  write_line_loop_lines (rustLines s) t []

theorem write_line_net (t : TrackedTerm) (s : String) :
    (t.write_line s).1.net_up_displacement = t.net_up_displacement :=
  write_line_loop_net (rustLines s) t []

theorem write_line_effects (t : TrackedTerm) (s : String) :
    (t.write_line s).2 = (rustLines s).map Effect.writeLine :=
  write_line_loop_effects (rustLines s) t []

theorem move_cursor_down_net (t : TrackedTerm) (n : Nat) :
    (t.move_cursor_down n).1.net_up_displacement = t.net_up_displacement - n := by
  by_cases h : n ≤ t.net_up_displacement <;>
    simp [TrackedTerm.move_cursor_down, checked_sub, h] <;> omega

theorem move_cursor_down_lines (t : TrackedTerm) (n : Nat) :
    (t.move_cursor_down n).1.lines_written =
      t.lines_written + (n - t.net_up_displacement) := by
  by_cases h : n ≤ t.net_up_displacement <;>
    simp [TrackedTerm.move_cursor_down, checked_sub, h] <;> omega

theorem move_cursor_down_effects (t : TrackedTerm) (n : Nat) :
    (t.move_cursor_down n).2 = [Effect.moveDown n] := by
  by_cases h : n ≤ t.net_up_displacement <;>
    simp [TrackedTerm.move_cursor_down, checked_sub, h]

theorem reset_lines (t : TrackedTerm) : t.reset.1.lines_written = 0 := by
  by_cases h : 0 < t.net_up_displacement <;> simp [TrackedTerm.reset, h]

theorem reset_net (t : TrackedTerm) : t.reset.1.net_up_displacement = 0 := by
  have h2 := move_cursor_down_net t t.net_up_displacement
  by_cases h : 0 < t.net_up_displacement <;>
    simp [TrackedTerm.reset, h] <;> omega

theorem reset_effects (t : TrackedTerm) :
    t.reset.2 = (if 0 < t.net_up_displacement
                 then [Effect.moveDown t.net_up_displacement] else [])
      ++ [Effect.clearLastLines (t.lines_written + 1)] := by
  by_cases h : 0 < t.net_up_displacement <;> simp [TrackedTerm.reset, h]
  rw [move_cursor_down_effects, move_cursor_down_lines]
  simp

theorem reset_erased (t : TrackedTerm) :
    erasedCount t.reset.2 = t.lines_written + 1 := by
  rw [reset_effects]
  by_cases h : 0 < t.net_up_displacement <;> simp [h, erasedCount]

theorem applyOp_inv (t : TrackedTerm) (op : TOp)
    (h : t.net_up_displacement ≤ t.lines_written) (hg : guardOp t op = true) :
    (t.applyOp op).1.net_up_displacement ≤ (t.applyOp op).1.lines_written := by
  cases op with
  | writeLine s =>
      simp [TrackedTerm.applyOp, write_line_lines, write_line_net]
      omega
  | lineBreak =>
      simp [TrackedTerm.applyOp, TrackedTerm.line_break, write_line_lines,
            write_line_net]
      omega
  | reset => simp [TrackedTerm.applyOp, reset_lines, reset_net]
  | clearLastLines n =>
      simp only [TrackedTerm.applyOp, TrackedTerm.clear_last_lines]
      split <;> simp <;> omega
  | moveCursorUp n =>
      simp [guardOp] at hg
      simp [TrackedTerm.applyOp, TrackedTerm.move_cursor_up]
      omega
  | moveCursorDown n =>
      simp [TrackedTerm.applyOp, move_cursor_down_net, move_cursor_down_lines]
      omega
  | forceClearLine =>
      simpa [TrackedTerm.applyOp, TrackedTerm.force_clear_line] using h

theorem applyOps_inv (ops : List TOp) : ∀ t : TrackedTerm,
    t.net_up_displacement ≤ t.lines_written → validTOps t ops = true →
    (t.applyOps ops).net_up_displacement ≤ (t.applyOps ops).lines_written := by
  induction ops with
  | nil => intro t h _; simpa [TrackedTerm.applyOps] using h
  | cons op rest ih =>
      intro t h hv
      simp only [validTOps, Bool.and_eq_true] at hv
      exact ih _ (applyOp_inv t op h hv.1) hv.2

theorem validTOps_take (ops : List TOp) : ∀ (t : TrackedTerm) (k : Nat),
    validTOps t ops = true → validTOps t (ops.take k) = true := by
  induction ops with
  | nil => intro t k _; simp [validTOps, List.take]
  | cons op rest ih =>
      intro t k hv
      cases k with
      | zero => simp [validTOps]
      | succ k =>
          simp only [List.take, validTOps, Bool.and_eq_true] at hv ⊢
          exact ⟨hv.1, ih _ k hv.2⟩

theorem applyOps_cons (t : TrackedTerm) (op : TOp) (rest : List TOp) :
    t.applyOps (op :: rest) = (t.applyOp op).1.applyOps rest := rfl

theorem writeOps_state (ops : List TOp) : ∀ t : TrackedTerm,
    ops.all isWriteOp = true →
    (t.applyOps ops).lines_written = t.lines_written + countedLines ops ∧
    (t.applyOps ops).net_up_displacement = t.net_up_displacement := by
  induction ops with
  | nil => intro t _; simp [TrackedTerm.applyOps, countedLines]
  | cons op rest ih =>
      intro t hall
      simp only [List.all_cons, Bool.and_eq_true] at hall
      cases op with
      | writeLine s =>
          have h := ih (t.applyOp (TOp.writeLine s)).1 hall.2
          rw [applyOps_cons, h.1, h.2]
          simp [TrackedTerm.applyOp, write_line_lines, write_line_net,
                countedLines]
          omega
      | lineBreak =>
          have h := ih (t.applyOp TOp.lineBreak).1 hall.2
          rw [applyOps_cons, h.1, h.2]
          have hnl : rustLines "\n" = [""] := by decide
          simp [TrackedTerm.applyOp, TrackedTerm.line_break, write_line_lines,
                write_line_net, countedLines, hnl]
          omega
      | reset => simp [isWriteOp] at hall
      | clearLastLines n => simp [isWriteOp] at hall
      | moveCursorUp n => simp [isWriteOp] at hall
      | moveCursorDown n => simp [isWriteOp] at hall
      | forceClearLine => simp [isWriteOp] at hall

theorem dir_inv_aux {α : Type} (ops : List (DirOp α)) : ∀ d : Directory α,
    d.selected < max 1 d.items.length → validDirOps d ops = true →
    (d.applyOps ops).selected < max 1 (d.applyOps ops).items.length := by
  induction ops with
  | nil => intro d h _; simpa [Directory.applyOps] using h
  | cons op rest ih =>
      intro d h hv
      simp only [validDirOps, Bool.and_eq_true] at hv
      refine ih (d.applyOp op) ?_ hv.2
      have hg := hv.1
      cases op with
      | set_prompt s =>
          simpa [Directory.applyOp, Directory.set_prompt] using h
      | item x =>
          simp [Directory.applyOp, Directory.item]
          omega
      | default n =>
          simp [dirGuard] at hg
          simp [Directory.applyOp, Directory.default]
          omega
      | confirmation s =>
          simpa [Directory.applyOp, Directory.confirmation] using h
      | select_update v =>
          simp [dirGuard] at hg
          simp [Directory.applyOp, Directory.select_update]
          omega

/-- Claim C1, amended: starting from a fresh tracker, every guarded
sequence of public operations keeps net_up_displacement ≤ lines_written
after each operation; the guard, forced by the counterexample, restricts
only move_cursor_up(n), which must satisfy net_up_displacement + n ≤
lines_written when called.  All other operations are unrestricted. -/
theorem trackedterm_invariant (ops : List TOp)
    (h : validTOps TrackedTerm.stdout ops = true) (k : Nat) :
    (TrackedTerm.stdout.applyOps (ops.take k)).net_up_displacement ≤
      (TrackedTerm.stdout.applyOps (ops.take k)).lines_written :=
  applyOps_inv (ops.take k) TrackedTerm.stdout (Nat.le_refl 0)
    (validTOps_take ops TrackedTerm.stdout k h)

/-- Witness for C1: a concrete guarded sequence. -/
theorem trackedterm_invariant_witness :
    validTOps TrackedTerm.stdout [TOp.writeLine "x", TOp.moveCursorUp 1] = true ∧
    (TrackedTerm.stdout.applyOps
        ([TOp.writeLine "x", TOp.moveCursorUp 1].take 2)).net_up_displacement ≤
      (TrackedTerm.stdout.applyOps
        ([TOp.writeLine "x", TOp.moveCursorUp 1].take 2)).lines_written :=
  ⟨by decide,
   trackedterm_invariant [TOp.writeLine "x", TOp.moveCursorUp 1] (by decide) 2⟩

/-- Counterexample to C1 as stated: from a fresh tracker the single public
operation move_cursor_up(1) leaves net_up_displacement = 1 above
lines_written = 0. -/
theorem trackedterm_invariant_counterexample :
    ¬ ((TrackedTerm.stdout.applyOps [TOp.moveCursorUp 1]).net_up_displacement ≤
       (TrackedTerm.stdout.applyOps [TOp.moveCursorUp 1]).lines_written) := by
  decide

/-- Claim C2: on any state with net_up_displacement ≤ lines_written, reset
first moves the cursor down by the displacement when it is positive, then
erases exactly lines_written + 1 lines, and exits with both counters zero;
and any write_line/line_break sequence from a fresh tracker followed by
reset erases exactly (counted lines) + 1 lines and zeroes the count. -/
theorem reset_spec :
    (∀ t : TrackedTerm, t.net_up_displacement ≤ t.lines_written →
      t.reset.2 = (if 0 < t.net_up_displacement
                   then [Effect.moveDown t.net_up_displacement] else [])
          ++ [Effect.clearLastLines (t.lines_written + 1)] ∧
      erasedCount t.reset.2 = t.lines_written + 1 ∧
      t.reset.1.lines_written = 0 ∧ t.reset.1.net_up_displacement = 0) ∧
    (∀ ops : List TOp, ops.all isWriteOp = true →
      (TrackedTerm.stdout.applyOps ops).lines_written = countedLines ops ∧
      (TrackedTerm.stdout.applyOps ops).reset.1.lines_written = 0 ∧
      erasedCount (TrackedTerm.stdout.applyOps ops).reset.2 =
        countedLines ops + 1) := by
  constructor
  · intro t _
    exact ⟨reset_effects t, reset_erased t, reset_lines t, reset_net t⟩
  · intro ops hall
    have h := (writeOps_state ops TrackedTerm.stdout hall).1
    have h0 : TrackedTerm.stdout.lines_written = 0 := rfl
    rw [h0] at h
    refine ⟨by omega, reset_lines _, ?_⟩
    rw [reset_erased]
    omega

/-- Witness for C2 at a concrete state and a concrete write sequence. -/
theorem reset_spec_witness :
    ((1 : Nat) ≤ 2 ∧ (TrackedTerm.mk 2 1).reset.1.lines_written = 0 ∧
      (TrackedTerm.mk 2 1).reset.1.net_up_displacement = 0) ∧
    erasedCount ((TrackedTerm.stdout.applyOps
        [TOp.writeLine "a\nb", TOp.lineBreak]).reset.2) = 3 + 1 := by
  refine ⟨⟨by decide, ?_⟩, ?_⟩
  · have h := reset_spec.1 ⟨2, 1⟩ (by decide)
    exact ⟨h.2.2.1, h.2.2.2⟩
  · have h := (reset_spec.2 [TOp.writeLine "a\nb", TOp.lineBreak] (by decide)).2.2
    have hc : countedLines [TOp.writeLine "a\nb", TOp.lineBreak] = 3 := by decide
    rw [hc] at h
    exact h

/-- Claim C3: on any state with net_up_displacement ≤ lines_written,
clear_last_lines(n) erases exactly min n (lines_written -
net_up_displacement) lines, raises the displacement by the number erased,
and leaves lines_written unchanged. -/
theorem clear_last_lines_spec (t : TrackedTerm) (n : Nat)
    (h : t.net_up_displacement ≤ t.lines_written) :
    erasedCount (t.clear_last_lines n).2 =
      min n (t.lines_written - t.net_up_displacement) ∧
    (t.clear_last_lines n).1.net_up_displacement =
      t.net_up_displacement +
        min n (t.lines_written - t.net_up_displacement) ∧
    (t.clear_last_lines n).1.lines_written = t.lines_written := by
  simp only [TrackedTerm.clear_last_lines]
  split <;> simp [erasedCount] <;> omega

/-- Witness for C3 at the state (5, 2) with an oversized request. -/
theorem clear_last_lines_spec_witness :
    (2 : Nat) ≤ 5 ∧
    erasedCount ((TrackedTerm.mk 5 2).clear_last_lines 10).2 = min 10 3 ∧
    ((TrackedTerm.mk 5 2).clear_last_lines 10).1.net_up_displacement =
      2 + min 10 3 ∧
    ((TrackedTerm.mk 5 2).clear_last_lines 10).1.lines_written = 5 := by
  have h := clear_last_lines_spec ⟨5, 2⟩ 10 (by decide)
  exact ⟨by decide, h.1, h.2.1, h.2.2⟩

/-- Claim C4: move_cursor_down(n) consumes displacement when it covers n,
otherwise zeroes the displacement and adds the shortfall to
lines_written. -/
theorem move_cursor_down_spec (t : TrackedTerm) (n : Nat) :
    (n ≤ t.net_up_displacement →
      (t.move_cursor_down n).1.net_up_displacement =
        t.net_up_displacement - n ∧
      (t.move_cursor_down n).1.lines_written = t.lines_written) ∧
    (t.net_up_displacement < n →
      (t.move_cursor_down n).1.net_up_displacement = 0 ∧
      (t.move_cursor_down n).1.lines_written =
        t.lines_written + (n - t.net_up_displacement)) := by
  have h1 := move_cursor_down_net t n
  have h2 := move_cursor_down_lines t n
  constructor <;> intro h <;> constructor <;> omega

/-- Witness for C4: both branches at the state (5, 2). -/
theorem move_cursor_down_spec_witness :
    (((TrackedTerm.mk 5 2).move_cursor_down 1).1.net_up_displacement = 2 - 1 ∧
     ((TrackedTerm.mk 5 2).move_cursor_down 1).1.lines_written = 5) ∧
    (((TrackedTerm.mk 5 2).move_cursor_down 3).1.net_up_displacement = 0 ∧
     ((TrackedTerm.mk 5 2).move_cursor_down 3).1.lines_written = 5 + (3 - 2)) :=
  ⟨(move_cursor_down_spec ⟨5, 2⟩ 1).1 (by decide),
   (move_cursor_down_spec ⟨5, 2⟩ 3).2 (by decide)⟩

/-- Claim C5: line_break is write_line on the newline string, which splits
into exactly one empty line, so it writes a single empty line and raises
lines_written by one; write_line raises lines_written by the number of
lines its argument splits into. -/
theorem line_break_spec (t : TrackedTerm) :
    t.line_break = t.write_line "\n" ∧
    rustLines "\n" = [""] ∧
    t.line_break.2 = [Effect.writeLine ""] ∧
    t.line_break.1.lines_written = t.lines_written + 1 ∧
    ∀ s : String, (t.write_line s).1.lines_written =
      t.lines_written + (rustLines s).length := by
  have hnl : rustLines "\n" = [""] := by decide
  refine ⟨rfl, hnl, ?_, ?_, fun s => write_line_lines t s⟩
  · rw [show t.line_break = t.write_line "\n" from rfl, write_line_effects, hnl]
    rfl
  · rw [show t.line_break = t.write_line "\n" from rfl, write_line_lines, hnl]
    rfl

/-- Claim C6: move_cursor_up(n) followed by move_cursor_down(n) restores
net_up_displacement and leaves lines_written unchanged. -/
theorem up_down_cancel (t : TrackedTerm) (n : Nat) :
    ((t.move_cursor_up n).1.move_cursor_down n).1.net_up_displacement =
      t.net_up_displacement ∧
    ((t.move_cursor_up n).1.move_cursor_down n).1.lines_written =
      t.lines_written := by
  have h1 := move_cursor_down_net (t.move_cursor_up n).1 n
  have h2 := move_cursor_down_lines (t.move_cursor_up n).1 n
  have h3 : (t.move_cursor_up n).1.net_up_displacement =
      t.net_up_displacement + n := rfl
  have h4 : (t.move_cursor_up n).1.lines_written = t.lines_written := rfl
  constructor <;> omega

/-- Claim C7, evaluated at the failing input: Paragraph::exec on title "T"
with the single body "B" from a fresh tracker leaves the Paragraph intact
and reports enabled, but the terminal receives only the three non-empty
lines: the blank separator lines the specification promises after the
title and after each body are dropped, because write_line of the empty
string splits into zero lines and so writes nothing. -/
theorem paragraph_exec_eval :
    (Paragraph.exec ⟨"T", ["B"]⟩ TrackedTerm.stdout).2.2 =
      [Effect.writeLine "T", Effect.writeLine "B",
       Effect.writeLine "  Press 's' to save to a file, or 'q' to go back"] ∧
    (Paragraph.exec ⟨"T", ["B"]⟩ TrackedTerm.stdout).1 = ⟨"T", ["B"]⟩ ∧
    Paragraph.is_enabled ⟨"T", ["B"]⟩ = true ∧
    (Paragraph.exec ⟨"T", ["B"]⟩ TrackedTerm.stdout).2.1.lines_written = 3 := by
  decide

/-- Claim C8: a Toggle built with labels yes and no and default value
false displays a name ending in ": no", then ": yes" after one exec, then
": no" after a second; and after construction, each builder, and exec the
cached content equals the format built from the current title, value and
labels. -/
theorem toggle_spec :
    (∀ title : String,
      (∃ p, (((Toggle.new title).set_true_text "yes").set_false_text
          "no").name = p ++ ": no") ∧
      (∃ p, ((((Toggle.new title).set_true_text "yes").set_false_text
          "no").exec).name = p ++ ": yes") ∧
      (∃ p, (((((Toggle.new title).set_true_text "yes").set_false_text
          "no").exec).exec).name = p ++ ": no")) ∧
    (∀ s, (Toggle.new s).content = (Toggle.new s).fmt) ∧
    (∀ t v, (Toggle.set_value t v).content = (Toggle.set_value t v).fmt) ∧
    (∀ t s, (Toggle.set_true_text t s).content =
      (Toggle.set_true_text t s).fmt) ∧
    (∀ t s, (Toggle.set_false_text t s).content =
      (Toggle.set_false_text t s).fmt) ∧
    (∀ t : Toggle, t.exec.content = t.exec.fmt) := by
  refine ⟨?_, fun s => rfl, fun t v => rfl, fun t s => rfl, fun t s => rfl,
    fun t => rfl⟩
  intro title
  refine ⟨⟨title, ?_⟩, ⟨title, ?_⟩, ⟨title, ?_⟩⟩
  · show title ++ ": " ++ "no" = title ++ ": no"
    rw [string_append_assoc]
    exact congrArg (fun z => title ++ z) (by decide)
  · show title ++ ": " ++ "yes" = title ++ ": yes"
    rw [string_append_assoc]
    exact congrArg (fun z => title ++ z) (by decide)
  · show title ++ ": " ++ "no" = title ++ ": no"
    rw [string_append_assoc]
    exact congrArg (fun z => title ++ z) (by decide)

/-- Claim C9, amended: for every guarded sequence of Directory operations
from a fresh Directory — each default(d) call must pass an index below the
current item count, or zero while the list is still empty, and each
selection update stores an index the selection widget produced, hence one
below the item count — the selected index stays below the item count
whenever the item list is non-empty. -/
theorem directory_selected_invariant {α : Type} (title : String)
    (ops : List (DirOp α)) (hv : validDirOps (Directory.new title) ops = true)
    (hne : ((Directory.new title).applyOps ops).items ≠ []) :
    ((Directory.new title).applyOps ops).selected <
      ((Directory.new title).applyOps ops).items.length := by
  have h0 : (Directory.new title : Directory α).selected <
      max 1 (Directory.new title : Directory α).items.length := by
    simp [Directory.new]
  have h := dir_inv_aux ops (Directory.new title) h0 hv
  have hlen : 0 < ((Directory.new title).applyOps ops).items.length :=
    List.length_pos.mpr hne
  omega

/-- Witness for C9: a concrete guarded sequence. -/
theorem directory_selected_invariant_witness :
    validDirOps (Directory.new "t" : Directory Unit)
      [DirOp.item (), DirOp.default 0, DirOp.select_update 0] = true ∧
    ((Directory.new "t" : Directory Unit).applyOps
      [DirOp.item (), DirOp.default 0, DirOp.select_update 0]).items ≠ [] ∧
    ((Directory.new "t" : Directory Unit).applyOps
      [DirOp.item (), DirOp.default 0, DirOp.select_update 0]).selected <
      ((Directory.new "t" : Directory Unit).applyOps
        [DirOp.item (), DirOp.default 0, DirOp.select_update 0]).items.length :=
  ⟨by decide, by decide,
   directory_selected_invariant "t"
     [DirOp.item (), DirOp.default 0, DirOp.select_update 0]
     (by decide) (by decide)⟩

/-- Counterexample to C9 as stated: new, one item, then default 5 yields a
non-empty Directory whose selected index 5 is not below its item count
1. -/
theorem directory_selected_counterexample :
    (((Directory.new "t" : Directory Unit).item ()).default 5).items ≠ [] ∧
    ¬ ((((Directory.new "t" : Directory Unit).item ()).default 5).selected <
       (((Directory.new "t" : Directory Unit).item ()).default
         5).items.length) := by
  decide

/-- Claim C10: the panic branch of move_cursor_down is unreachable: when
the outer checked_sub returns none the inner one returns some, so the
checked model always returns the total model's result. -/
theorem move_cursor_down_no_panic (t : TrackedTerm) (n : Nat) :
    (checked_sub t.net_up_displacement n = none →
      (checked_sub n t.net_up_displacement).isSome = true) ∧
    move_cursor_down_checked t n = some (t.move_cursor_down n) := by
  constructor
  · intro h
    simp [checked_sub] at h ⊢
    omega
  · by_cases h : n ≤ t.net_up_displacement
    · simp [move_cursor_down_checked, TrackedTerm.move_cursor_down,
            checked_sub, h]
    · have h2 : t.net_up_displacement ≤ n := Nat.le_of_lt (Nat.lt_of_not_le h)
      simp [move_cursor_down_checked, TrackedTerm.move_cursor_down,
            checked_sub, h, h2]

/-- Witness for C10 at the state (0, 0) with n = 1, where the outer
checked_sub does fail. -/
theorem move_cursor_down_no_panic_witness :
    (checked_sub 1 0).isSome = true ∧
    move_cursor_down_checked ⟨0, 0⟩ 1 =
      some (TrackedTerm.move_cursor_down ⟨0, 0⟩ 1) :=
  ⟨(move_cursor_down_no_panic ⟨0, 0⟩ 1).1 (by decide),
   (move_cursor_down_no_panic ⟨0, 0⟩ 1).2⟩
